import Mathlib

/-!
# Verification of the Cricket Motion Analizer pipeline

Shallow embedding of the repository's Python sources:

* `video_extractor.py` — `extract_frames`, stride-based frame sampling;
* `pose_estimator.py` — `extract_pose_from_frames`, per-frame landmark records
  (the external pose model is treated as an oracle supplied with each frame);
* `feature_extractor.py` — `_angle` and `extract_biomechanics`;
* `renderer.py` — `_angle`, the visibility filter, the trail buffer and the
  live elbow-angle overlay of `render_skeleton_video`;
* `visualizer.py` — `_load_landmarks`, `_skeleton_trace`, `compare_poses`.

Python floats are modelled as exact rationals where they are only stored and
compared, and as real numbers where trigonometry (`math.atan2`,
`math.degrees`) is involved.  Fallible code is modelled with `Option`/`Except`.
-/

/-- Python `math.atan2 y x`: the argument of the point `(x, y)`, in `(-π, π]`. -/
noncomputable def atan2 (y x : ℝ) : ℝ := Complex.arg ⟨x, y⟩

/-- Python `math.degrees`: radians to degrees. -/
noncomputable def degrees (r : ℝ) : ℝ := r * (180 / Real.pi)

/-- The raw signed angle `ang` (in degrees) computed inside `_angle` in both
`feature_extractor.py` and `renderer.py`:
`math.degrees(math.atan2(c[1]-b[1], c[0]-b[0]) - math.atan2(a[1]-b[1], a[0]-b[0]))`. -/
noncomputable def rawAngle (a b c : ℝ × ℝ) : ℝ :=
  degrees (atan2 (c.2 - b.2) (c.1 - b.1) - atan2 (a.2 - b.2) (a.1 - b.1))

/-- `_angle(a, b, c)` from `feature_extractor.py` (lines 27–32) and
`renderer.py` (lines 52–54): `abs(ang if ang < 180 else 360 - ang)`. -/
noncomputable def _angle (a b c : ℝ × ℝ) : ℝ :=
  if rawAngle a b c < 180 then |rawAngle a b c| else |360 - rawAngle a b c|

lemma neg_pi_lt_atan2 (y x : ℝ) : -Real.pi < atan2 y x := Complex.neg_pi_lt_arg _

lemma atan2_le_pi (y x : ℝ) : atan2 y x ≤ Real.pi := Complex.arg_le_pi _

/-- The raw angle difference is strictly between `-360` and `360` degrees. -/
lemma abs_rawAngle_lt_360 (a b c : ℝ × ℝ) : |rawAngle a b c| < 360 := by
  have hπ : (0:ℝ) < Real.pi := Real.pi_pos
  have h1 := neg_pi_lt_atan2 (c.2 - b.2) (c.1 - b.1)
  have h2 := atan2_le_pi (c.2 - b.2) (c.1 - b.1)
  have h3 := neg_pi_lt_atan2 (a.2 - b.2) (a.1 - b.1)
  have h4 := atan2_le_pi (a.2 - b.2) (a.1 - b.1)
  unfold rawAngle degrees
  rw [abs_mul, abs_of_pos (show (0:ℝ) < 180 / Real.pi by positivity)]
  have habs : |atan2 (c.2 - b.2) (c.1 - b.1) - atan2 (a.2 - b.2) (a.1 - b.1)|
      < 2 * Real.pi := by
    rw [abs_lt]; constructor <;> linarith
  have hlt := mul_lt_mul_of_pos_right habs
    (show (0:ℝ) < 180 / Real.pi by positivity)
  calc |atan2 (c.2 - b.2) (c.1 - b.1) - atan2 (a.2 - b.2) (a.1 - b.1)|
        * (180 / Real.pi)
      < 2 * Real.pi * (180 / Real.pi) := hlt
    _ = 360 := by field_simp; ring

/-- Swapping the outer points negates the raw angle. -/
lemma rawAngle_swap (a b c : ℝ × ℝ) : rawAngle c b a = -rawAngle a b c := by
  unfold rawAngle degrees; ring

lemma atan2_neg_one_zero : atan2 (-1) 0 = -(Real.pi / 2) := by
  have h : (⟨0, -1⟩ : ℂ) = -Complex.I := by
    apply Complex.ext <;> simp
  show Complex.arg ⟨0, -1⟩ = -(Real.pi / 2)
  rw [h, Complex.arg_neg_I]

lemma atan2_zero_neg_one : atan2 0 (-1) = Real.pi := by
  have h : (⟨-1, 0⟩ : ℂ) = -1 := by
    apply Complex.ext <;> simp
  show Complex.arg ⟨-1, 0⟩ = Real.pi
  rw [h, Complex.arg_neg_one]

lemma atan2_one_zero : atan2 1 0 = Real.pi / 2 := by
  have h : (⟨0, 1⟩ : ℂ) = Complex.I := by
    apply Complex.ext <;> simp
  show Complex.arg ⟨0, 1⟩ = Real.pi / 2
  rw [h, Complex.arg_I]

/-- Concrete evaluation: the triple `a = (0,1)`, `b = (1,1)`, `c = (1,0)` has a
raw angle of `-270` degrees. -/
lemma rawAngle_eval_neg_270 : rawAngle ((0:ℝ), 1) (1, 1) (1, 0) = -270 := by
  have hπ : Real.pi ≠ 0 := Real.pi_ne_zero
  unfold rawAngle
  norm_num
  rw [atan2_neg_one_zero, atan2_zero_neg_one]
  unfold degrees
  field_simp
  ring

/-- Concrete evaluation: `_angle((0,1), (1,1), (1,0)) = 270`. -/
lemma angle_eval_270 : _angle ((0:ℝ), 1) (1, 1) (1, 0) = 270 := by
  unfold _angle
  rw [rawAngle_eval_neg_270, if_pos (by norm_num : (-270:ℝ) < 180),
    abs_of_nonpos (by norm_num : (-270:ℝ) ≤ 0)]
  norm_num

/-- Concrete evaluation: the swapped triple has a raw angle of `+270` degrees. -/
lemma rawAngle_eval_pos_270 : rawAngle ((1:ℝ), 0) (1, 1) (0, 1) = 270 := by
  have h := rawAngle_swap ((0:ℝ), 1) ((1:ℝ), 1) ((1:ℝ), 0)
  rw [rawAngle_eval_neg_270] at h
  rw [h]; norm_num

/-- Concrete evaluation: `_angle((1,0), (1,1), (0,1)) = 90`. -/
lemma angle_eval_90 : _angle ((1:ℝ), 0) (1, 1) (0, 1) = 90 := by
  unfold _angle
  rw [rawAngle_eval_pos_270, if_neg (by norm_num : ¬ (270:ℝ) < 180),
    abs_of_nonneg (by norm_num : (0:ℝ) ≤ 360 - 270)]
  norm_num

/-- The range `_angle` actually guarantees: `[0, 360)`. -/
lemma angle_nonneg_lt_360 (a b c : ℝ × ℝ) :
    0 ≤ _angle a b c ∧ _angle a b c < 360 := by
  have h := abs_rawAngle_lt_360 a b c
  rw [abs_lt] at h
  unfold _angle
  split_ifs with hc
  · refine ⟨abs_nonneg _, ?_⟩
    rw [abs_lt]; constructor <;> linarith [h.1, h.2]
  · push_neg at hc
    refine ⟨abs_nonneg _, ?_⟩
    rw [abs_lt]; constructor <;> linarith [h.1, h.2]

/-- C1 (amended): for every triple of 2-D points the angle helper `_angle`
returns a value in the half-open interval `[0, 360)` degrees (the claimed
upper bound `180` does not hold, see the counterexample). -/
theorem C1_angle_range (a b c : ℝ × ℝ) :
    0 ≤ _angle a b c ∧ _angle a b c < 360 :=
  angle_nonneg_lt_360 a b c

/-- C1 counterexample: `_angle((0,1), (1,1), (1,0))` evaluates to `270`,
which is not in the closed interval `[0, 180]`. -/
theorem C1_cex_angle_exceeds_180 :
    _angle ((0:ℝ), 1) (1, 1) (1, 0) = 270 ∧
      ¬ _angle ((0:ℝ), 1) (1, 1) (1, 0) ≤ 180 := by
  refine ⟨angle_eval_270, ?_⟩
  rw [angle_eval_270]; norm_num

/-- C3 (amended): swapping the two non-vertex points either leaves `_angle`
unchanged or reflects it to `360 - _angle`; exact invariance fails in general
(see the counterexample). -/
theorem C3_angle_swap (a b c : ℝ × ℝ) :
    _angle c b a = _angle a b c ∨ _angle c b a = 360 - _angle a b c := by
  have h := abs_rawAngle_lt_360 a b c
  rw [abs_lt] at h
  unfold _angle
  rw [rawAngle_swap a b c]
  split_ifs with h1 h2 h2
  · left; rw [abs_neg]
  · push_neg at h2
    right
    rw [abs_neg, abs_of_nonneg (by linarith : (0:ℝ) ≤ rawAngle a b c),
      abs_of_nonneg (by linarith : (0:ℝ) ≤ 360 - rawAngle a b c)]
    ring
  · right
    rw [abs_of_nonneg (by linarith : (0:ℝ) ≤ 360 - -rawAngle a b c),
      abs_of_nonpos (by linarith : rawAngle a b c ≤ 0)]
  · exfalso; push_neg at h1 h2; linarith

/-- C3 counterexample: for `a = (0,1)`, `b = (1,1)`, `c = (1,0)` the helper
gives `_angle(a,b,c) = 270` but `_angle(c,b,a) = 90`, so the claimed swap
invariance fails. -/
theorem C3_cex_swap_differs :
    _angle ((0:ℝ), 1) (1, 1) (1, 0) ≠ _angle ((1:ℝ), 0) (1, 1) (0, 1) := by
  rw [angle_eval_270, angle_eval_90]; norm_num

/-- A video source as observed by `extract_frames` in `video_extractor.py`:
whether the path exists, whether OpenCV can open it, the reported native
frame rate (a float, modelled as an exact rational), and the sequence of
decodable frames. -/
structure VideoSource (α : Type) where
  pathExists : Bool
  opens : Bool
  native_fps : ℚ
  frames : List α

/-- `stride = int(max(native_fps // fps, 1))` from `video_extractor.py`
(line 48): float floor division followed by `max` with `1`. -/
def stride (native : ℚ) (fps : ℤ) : ℕ := (max (⌊native / (fps : ℚ)⌋) 1).toNat

/-- The frame-reading loop of `extract_frames` (lines 52–61): walk the
decoded frames with a running index `idx`, keeping a frame exactly when
`idx % stride == 0`. -/
def framesLoop (s : ℕ) : ℕ → List α → List α
  | _, [] => []
  | idx, f :: fs =>
    if idx % s = 0 then f :: framesLoop s (idx + 1) fs
    else framesLoop s (idx + 1) fs

/-- `extract_frames` from `video_extractor.py`: raises (modelled as
`Except.error`) when the path is missing, the capture cannot be opened, the
reported native rate is zero, or — via Python float floor division — the
target rate is zero; otherwise returns the kept frames in order. -/
def extract_frames (v : VideoSource α) (fps : ℤ) : Except String (List α) :=
  if v.pathExists = false then Except.error "FileNotFoundError"
  else if v.opens = false then Except.error "Cannot open video"
  else if v.native_fps = 0 then Except.error "Source FPS reported as 0"
  else if fps = 0 then Except.error "ZeroDivisionError"
  else Except.ok (framesLoop (stride v.native_fps fps) 0 v.frames)

/-- The loop keeps exactly the frames whose decode index is a multiple of the
stride, in original order. -/
lemma framesLoop_eq_enumFrom (s : ℕ) :
    ∀ (l : List α) (i : ℕ),
      framesLoop s i l
        = ((List.enumFrom i l).filter fun p => p.1 % s == 0).map Prod.snd := by
  intro l
  induction l with
  | nil => intro i; rfl
  | cons f fs ih =>
    intro i
    rw [List.enumFrom_cons, List.filter_cons]
    by_cases hi : i % s = 0
    · simp only [framesLoop, if_pos hi, hi, beq_self_eq_true, if_pos,
        List.map_cons, ih (i + 1)]
    · have hb : ((i, f).1 % s == 0) = false := by
        simpa using hi
      simp only [framesLoop, if_neg hi, hb, Bool.false_eq_true, if_false,
        ih (i + 1)]

/-- Counting multiples of `s` below `n`: there are `⌈n / s⌉ = (n + s - 1) / s`
of them. -/
lemma countP_range_mod (s : ℕ) (hs : 0 < s) :
    ∀ n : ℕ, (List.range n).countP (fun j => j % s == 0) = (n + s - 1) / s := by
  intro n
  induction n with
  | zero =>
    have h0 : (s - 1) / s = 0 := Nat.div_eq_of_lt (by omega)
    simp [h0]
  | succ n ih =>
    rw [List.range_succ, List.countP_append, ih]
    have hnum : n + 1 + s - 1 = (n + s - 1) + 1 := by omega
    rw [hnum, Nat.succ_div]
    have hdvd : (s ∣ n + s - 1 + 1) ↔ (n % s = 0) := by
      have h1 : n + s - 1 + 1 = n + s := by omega
      rw [h1, Nat.dvd_add_self_right, Nat.dvd_iff_mod_eq_zero]
    by_cases hm : n % s = 0
    · simp [hm, hdvd.mpr hm, List.countP_cons]
    · have : ¬ (s ∣ n + s - 1 + 1) := fun hd => hm (hdvd.mp hd)
      simp [hm, this, List.countP_cons]

/-- Length of the kept-frame list: `⌈N / s⌉` frames survive. -/
lemma framesLoop_length (s : ℕ) (hs : 0 < s) (l : List α) :
    (framesLoop s 0 l).length = (l.length + s - 1) / s := by
  rw [framesLoop_eq_enumFrom s l 0]
  show (((List.enum l).filter fun p => p.1 % s == 0).map Prod.snd).length
      = (l.length + s - 1) / s
  rw [List.length_map, ← List.countP_eq_length_filter]
  have hmap : (List.enum l).countP (fun p => p.1 % s == 0)
      = ((List.enum l).map Prod.fst).countP (fun j => j % s == 0) := by
    rw [List.countP_map]
    rfl
  rw [hmap, List.enum_map_fst, countP_range_mod s hs]

/-- The stride is positive whenever the rates are positive. -/
lemma stride_pos (native : ℚ) (fps : ℤ) : 0 < stride native fps := by
  unfold stride
  have h : (1:ℤ) ≤ max (⌊native / (fps : ℚ)⌋) 1 := le_max_right _ _
  omega

/-- C4: for a present, openable video with `N` decodable frames, positive
native rate `F` and positive target rate `R ≤ F`, `extract_frames` succeeds,
keeps exactly the frames whose decode index is divisible by
`stride = max(⌊F / R⌋, 1)` in original order, and the manifest has length
`⌈N / stride⌉ = (N + stride - 1) / stride`. -/
theorem C4_extract_frames_stride (v : VideoSource α) (fps : ℤ)
    (hex : v.pathExists = true) (hop : v.opens = true)
    (hnat : 0 < v.native_fps) (hfps : 0 < fps)
    (hle : (fps : ℚ) ≤ v.native_fps) :
    extract_frames v fps
        = Except.ok (((List.enum v.frames).filter
            fun p => p.1 % stride v.native_fps fps == 0).map Prod.snd) ∧
      (((List.enum v.frames).filter
            fun p => p.1 % stride v.native_fps fps == 0).map Prod.snd).length
        = (v.frames.length + stride v.native_fps fps - 1)
            / stride v.native_fps fps := by
  constructor
  · unfold extract_frames
    rw [hex, hop, if_neg (by simp), if_neg (by simp),
      if_neg (by intro h; rw [h] at hnat; exact lt_irrefl 0 hnat),
      if_neg (by omega)]
    rw [framesLoop_eq_enumFrom]
    rfl
  · have henum : List.enum v.frames = List.enumFrom 0 v.frames := rfl
    rw [henum, ← framesLoop_eq_enumFrom]
    exact framesLoop_length _ (stride_pos _ _) _

/-- C4 witness: a 10-frame, 30 fps video sampled at 5 fps has stride 6 and
yields exactly the frames with decode indices 0 and 6. -/
theorem C4_witness :
    extract_frames (⟨true, true, 30, [0, 1, 2, 3, 4, 5, 6, 7, 8, 9]⟩
        : VideoSource ℕ) 5 = Except.ok [0, 6] := by
  have h := C4_extract_frames_stride
    (⟨true, true, 30, [0, 1, 2, 3, 4, 5, 6, 7, 8, 9]⟩ : VideoSource ℕ) 5
    rfl rfl (by norm_num) (by norm_num) (by norm_num)
  rw [h.1]
  have hs : stride (30:ℚ) 5 = 6 := by
    norm_num [stride]
    decide
  show Except.ok (((List.enum [0, 1, 2, 3, 4, 5, 6, 7, 8, 9]).filter
      fun p => p.1 % stride (30:ℚ) 5 == 0).map Prod.snd) = Except.ok [0, 6]
  simp only [hs]
  exact congrArg Except.ok (by decide)

/-- C5 (amended): `extract_frames` errors if and only if the source is
missing, cannot be opened, reports a zero native rate, or — an error kind the
claim omits — the target rate is zero (Python float floor division by zero).
In every error case the result is independent of the frame contents: the
error is raised before any frame is read, so no manifest is returned. -/
theorem C5_extract_frames_error_iff (v : VideoSource α) (fps : ℤ) :
    ((∃ e, extract_frames v fps = Except.error e) ↔
      (v.pathExists = false ∨ v.opens = false ∨ v.native_fps = 0 ∨ fps = 0)) ∧
    (∀ l : List α, (∃ e, extract_frames v fps = Except.error e) →
      extract_frames { v with frames := l } fps = extract_frames v fps) := by
  constructor
  · unfold extract_frames
    split_ifs with h1 h2 h3 h4 <;> simp_all
  · intro l he
    unfold extract_frames at he ⊢
    split_ifs with h1 h2 h3 h4 <;> simp_all

/-- C5 counterexample: a present, openable source with nonzero native rate
still makes `extract_frames` raise, when the target rate is `0` — Python's
`native_fps // fps` is a float floor division by zero.  So "errors only if
the source is missing/unopenable/zero-rate" is false as stated. -/
theorem C5_cex_error_on_zero_target_rate :
    extract_frames (⟨true, true, 30, [0]⟩ : VideoSource ℕ) 0
        = Except.error "ZeroDivisionError" ∧
      (⟨true, true, 30, [0]⟩ : VideoSource ℕ).pathExists = true ∧
      (⟨true, true, 30, [0]⟩ : VideoSource ℕ).opens = true ∧
      (⟨true, true, 30, [0]⟩ : VideoSource ℕ).native_fps ≠ 0 := by
  refine ⟨rfl, rfl, rfl, by norm_num⟩

/-- C5 witness: the amended theorem applied at a missing source shows the
error result ignores the frame list. -/
theorem C5_witness :
    extract_frames (⟨false, true, 30, [7, 8]⟩ : VideoSource ℕ) 5
      = extract_frames (⟨false, true, 30, [9]⟩ : VideoSource ℕ) 5 :=
  (C5_extract_frames_error_iff (⟨false, true, 30, [9]⟩ : VideoSource ℕ) 5).2
    [7, 8] ⟨"FileNotFoundError", rfl⟩

/-- One body landmark as stored by `pose_estimator.py`:
`{"x": …, "y": …, "z": …, "vis": …}` (floats modelled as rationals). -/
structure Landmark where
  x : ℚ
  y : ℚ
  z : ℚ
  vis : ℚ

/-- A per-frame landmark record: the JSON object mapping point indices to
landmarks (keys unique in practice; association-list lookup). -/
abbrev LandmarkRecord := List (ℕ × Landmark)

/-- `lm[str(i)]` — dictionary lookup, `none` models a `KeyError`. -/
def lookupLm (lm : LandmarkRecord) (i : ℕ) : Option Landmark := List.lookup i lm

/-- The 2-D projection `(x, y)` used by `_angle` (it reads only indices
`[0]` and `[1]` of the 3-tuple returned by `pt`). -/
noncomputable def lmXY (l : Landmark) : ℝ × ℝ := ((l.x : ℝ), (l.y : ℝ))

/-- One row of the feature table produced by `extract_biomechanics`:
frame identifier and three angle scalars in degrees. -/
structure FeatureRow where
  frame : String
  r_elbow_deg : ℝ
  r_knee_deg : ℝ
  trunk_deg : ℝ

/-- The `try` block of `extract_biomechanics` on a single record: look up the
six required indices 12, 14, 16, 24, 26, 28 (any `KeyError` skips the frame,
modelled by the `Option` monad) and build the row with the right-elbow
angle, right-knee angle and the trunk angle
`degrees(atan2(shoulder.y - hip.y, shoulder.x - hip.x))`. -/
noncomputable def rowOfRecord (name : String) (lm : LandmarkRecord) :
    Option FeatureRow := do
  let p12 ← lookupLm lm 12
  let p14 ← lookupLm lm 14
  let p16 ← lookupLm lm 16
  let p24 ← lookupLm lm 24
  let p26 ← lookupLm lm 26
  let p28 ← lookupLm lm 28
  some { frame := name
       , r_elbow_deg := _angle (lmXY p12) (lmXY p14) (lmXY p16)
       , r_knee_deg := _angle (lmXY p24) (lmXY p26) (lmXY p28)
       , trunk_deg := degrees (atan2 ((p12.y : ℝ) - (p24.y : ℝ))
           ((p12.x : ℝ) - (p24.x : ℝ))) }

/-- The record loop of `extract_biomechanics` (lines 39–64): each record
either contributes one row or is skipped (`continue` on `KeyError`). -/
noncomputable def biomechLoop : List (String × LandmarkRecord) → List FeatureRow
  | [] => []
  | (name, lm) :: rest =>
    match rowOfRecord name lm with
    | some row => row :: biomechLoop rest
    | none => biomechLoop rest

/-- Result of `extract_biomechanics`: the collected rows and the fact that
the CSV file is written (`df.to_csv` runs unconditionally, lines 66–69). -/
structure BiomechanicsResult where
  rows : List FeatureRow
  csvWritten : Bool

/-- `extract_biomechanics` from `feature_extractor.py`: fold the records
into rows, then always write the CSV (even when `rows` is empty). -/
noncomputable def extract_biomechanics
    (records : List (String × LandmarkRecord)) : BiomechanicsResult :=
  { rows := biomechLoop records, csvWritten := true }

/-- The spec-side skip condition: a record has all six required landmark
indices. -/
def hasRequiredIndices (lm : LandmarkRecord) : Bool :=
  (lookupLm lm 12).isSome && (lookupLm lm 14).isSome &&
    (lookupLm lm 16).isSome && (lookupLm lm 24).isSome &&
    (lookupLm lm 26).isSome && (lookupLm lm 28).isSome

/-- The loop is a `filterMap`: skipped records vanish, surviving rows keep
the processing order. -/
lemma biomechLoop_eq_filterMap (records : List (String × LandmarkRecord)) :
    biomechLoop records = records.filterMap fun r => rowOfRecord r.1 r.2 := by
  induction records with
  | nil => rfl
  | cons r rest ih =>
    obtain ⟨name, lm⟩ := r
    rw [List.filterMap_cons]
    show (match rowOfRecord name lm with
      | some row => row :: biomechLoop rest
      | none => biomechLoop rest) = _
    cases h : rowOfRecord name lm <;> simp [h, ih]

/-- A record yields a row exactly when all six required indices are present. -/
lemma rowOfRecord_isSome (name : String) (lm : LandmarkRecord) :
    (rowOfRecord name lm).isSome = hasRequiredIndices lm := by
  unfold rowOfRecord hasRequiredIndices
  cases lookupLm lm 12 <;> cases lookupLm lm 14 <;> cases lookupLm lm 16 <;>
    cases lookupLm lm 24 <;> cases lookupLm lm 26 <;> cases lookupLm lm 28 <;>
      simp [Option.bind]

/-- C6: `extract_biomechanics` skips (without raising — the model is a total
function) exactly the records lacking a required landmark index, keeps the
surviving rows in processing order (a `filterMap` over the input), and
always reports the output table as written, even with zero surviving rows. -/
theorem C6_biomech_skips_and_writes (records : List (String × LandmarkRecord)) :
    (extract_biomechanics records).rows
        = records.filterMap (fun r => rowOfRecord r.1 r.2) ∧
      (∀ name lm, (rowOfRecord name lm).isSome = hasRequiredIndices lm) ∧
      (extract_biomechanics records).csvWritten = true :=
  ⟨biomechLoop_eq_filterMap records, rowOfRecord_isSome, rfl⟩

/-- Degrees of a value in `(-π, π]` lie in `(-180, 180]`. -/
lemma degrees_mem_Ioc (r : ℝ) (h1 : -Real.pi < r) (h2 : r ≤ Real.pi) :
    -180 < degrees r ∧ degrees r ≤ 180 := by
  have hπ : (0:ℝ) < Real.pi := Real.pi_pos
  have hpos : (0:ℝ) < 180 / Real.pi := by positivity
  unfold degrees
  constructor
  · have := mul_lt_mul_of_pos_right h1 hpos
    have heq : -Real.pi * (180 / Real.pi) = -180 := by
      field_simp
      ring
    linarith [heq ▸ this]
  · have := mul_le_mul_of_nonneg_right h2 (le_of_lt hpos)
    have heq : Real.pi * (180 / Real.pi) = 180 := by
      field_simp
    linarith [heq ▸ this]

/-- C2 (amended): every feature row emitted by `extract_biomechanics` has its
two `_angle` values `r_elbow_deg` and `r_knee_deg` in `[0, 360)` and its
`trunk_deg` — a bare `degrees(atan2(...))` — in `(-180, 180]`; the claimed
common interval `[0, 180]` holds for none of the three in general (see the
counterexample). -/
theorem C2_row_ranges (records : List (String × LandmarkRecord)) :
    ∀ row ∈ (extract_biomechanics records).rows,
      (0 ≤ row.r_elbow_deg ∧ row.r_elbow_deg < 360) ∧
        (0 ≤ row.r_knee_deg ∧ row.r_knee_deg < 360) ∧
        (-180 < row.trunk_deg ∧ row.trunk_deg ≤ 180) := by
  intro row hmem
  have hrows : (extract_biomechanics records).rows
      = records.filterMap (fun r => rowOfRecord r.1 r.2) :=
    biomechLoop_eq_filterMap records
  rw [hrows, List.mem_filterMap] at hmem
  obtain ⟨⟨name, lm⟩, _, heq⟩ := hmem
  unfold rowOfRecord at heq
  cases h12 : lookupLm lm 12 <;> rw [h12] at heq <;>
    try simp at heq
  cases h14 : lookupLm lm 14 <;> rw [h14] at heq <;>
    try simp at heq
  cases h16 : lookupLm lm 16 <;> rw [h16] at heq <;>
    try simp at heq
  cases h24 : lookupLm lm 24 <;> rw [h24] at heq <;>
    try simp at heq
  cases h26 : lookupLm lm 26 <;> rw [h26] at heq <;>
    try simp at heq
  cases h28 : lookupLm lm 28 <;> rw [h28] at heq <;>
    try simp at heq
  subst heq
  refine ⟨angle_nonneg_lt_360 _ _ _, angle_nonneg_lt_360 _ _ _, ?_⟩
  exact degrees_mem_Ioc _ (neg_pi_lt_atan2 _ _) (atan2_le_pi _ _)

/-- Concrete landmark record: all six required indices present, `vis = 1`.
Geometry chosen so that the knee `_angle` is `270` and the trunk angle is
`-90` degrees. -/
def rec2 : LandmarkRecord :=
  [ (12, ⟨0, 0, 0, 1⟩), (14, ⟨1, 0, 0, 1⟩), (16, ⟨1, 1, 0, 1⟩)
  , (24, ⟨0, 1, 0, 1⟩), (26, ⟨1, 1, 0, 1⟩), (28, ⟨1, 0, 0, 1⟩) ]

/-- The single feature row produced from `rec2`. -/
noncomputable def row2 : FeatureRow :=
  { frame := "f"
  , r_elbow_deg := _angle (lmXY ⟨0, 0, 0, 1⟩) (lmXY ⟨1, 0, 0, 1⟩)
      (lmXY ⟨1, 1, 0, 1⟩)
  , r_knee_deg := _angle (lmXY ⟨0, 1, 0, 1⟩) (lmXY ⟨1, 1, 0, 1⟩)
      (lmXY ⟨1, 0, 0, 1⟩)
  , trunk_deg := degrees (atan2 (((0:ℚ) : ℝ) - ((1:ℚ) : ℝ))
      (((0:ℚ) : ℝ) - ((0:ℚ) : ℝ))) }

lemma rows_rec2 : (extract_biomechanics [("f", rec2)]).rows = [row2] := rfl

lemma row2_knee : row2.r_knee_deg = 270 := by
  show _angle (lmXY ⟨0, 1, 0, 1⟩) (lmXY ⟨1, 1, 0, 1⟩) (lmXY ⟨1, 0, 0, 1⟩) = 270
  have h1 : lmXY ⟨0, 1, 0, 1⟩ = ((0:ℝ), 1) := by simp [lmXY]
  have h2 : lmXY ⟨1, 1, 0, 1⟩ = ((1:ℝ), 1) := by simp [lmXY]
  have h3 : lmXY ⟨1, 0, 0, 1⟩ = ((1:ℝ), 0) := by simp [lmXY]
  rw [h1, h2, h3, angle_eval_270]

lemma row2_trunk : row2.trunk_deg = -90 := by
  show degrees (atan2 (((0:ℚ) : ℝ) - ((1:ℚ) : ℝ))
      (((0:ℚ) : ℝ) - ((0:ℚ) : ℝ))) = -90
  have hπ : Real.pi ≠ 0 := Real.pi_ne_zero
  norm_num
  rw [atan2_neg_one_zero]
  unfold degrees
  field_simp
  ring

/-- C2 counterexample: processing the record `rec2` emits a row whose
`r_knee_deg` is `270 > 180` and whose `trunk_deg` is `-90 < 0`, so the
claimed interval `[0, 180]` fails for two of the three angle columns. -/
theorem C2_cex_row_out_of_range :
    ((extract_biomechanics [("f", rec2)]).rows.map fun r => r.trunk_deg)
        = [(-90 : ℝ)] ∧
      ((extract_biomechanics [("f", rec2)]).rows.map fun r => r.r_knee_deg)
        = [(270 : ℝ)] ∧
      ¬ ((0:ℝ) ≤ -90) ∧ ¬ ((270:ℝ) ≤ 180) := by
  rw [rows_rec2]
  refine ⟨?_, ?_, by norm_num, by norm_num⟩
  · simp [row2_trunk]
  · simp [row2_knee]

/-- C2 witness: the amended range theorem instantiated at the concrete
record `rec2` and its emitted row. -/
theorem C2_witness :
    (0 ≤ row2.r_elbow_deg ∧ row2.r_elbow_deg < 360) ∧
      (0 ≤ row2.r_knee_deg ∧ row2.r_knee_deg < 360) ∧
      (-180 < row2.trunk_deg ∧ row2.trunk_deg ≤ 180) := by
  apply C2_row_ranges [("f", rec2)] row2
  rw [rows_rec2]
  exact List.mem_singleton_self row2

/-- One input frame as seen by `extract_pose_from_frames` in
`pose_estimator.py`: the frame name (file stem), whether `cv2.imread`
succeeds, and the external pose model's result for that image (`none` when
no pose is detected).  The MediaPipe model itself is an oracle. -/
structure FrameData where
  name : String
  readable : Bool
  poseResult : Option LandmarkRecord

/-- The frame loop of `extract_pose_from_frames` (lines 36–47): skip
unreadable images (warning, not fatal), skip frames without a detected pose,
otherwise persist one landmark record named after the frame. -/
def poseLoop : List FrameData → List (String × LandmarkRecord)
  | [] => []
  | f :: rest =>
    if f.readable then
      match f.poseResult with
      | some lm => (f.name, lm) :: poseLoop rest
      | none => poseLoop rest
    else poseLoop rest

/-- `extract_pose_from_frames` from `pose_estimator.py`: returns the ordered
manifest of persisted landmark records. -/
def extract_pose_from_frames (frames : List FrameData) :
    List (String × LandmarkRecord) := poseLoop frames

/-- The pose loop is a `filterMap`. -/
lemma poseLoop_eq_filterMap (frames : List FrameData) :
    poseLoop frames = frames.filterMap fun f =>
      if f.readable then f.poseResult.map (fun lm => (f.name, lm)) else none := by
  induction frames with
  | nil => rfl
  | cons f rest ih =>
    rw [List.filterMap_cons]
    show (if f.readable then
        match f.poseResult with
        | some lm => (f.name, lm) :: poseLoop rest
        | none => poseLoop rest
      else poseLoop rest) = _
    by_cases hr : f.readable <;> cases hp : f.poseResult <;>
      simp [hr, hp, ih]

/-- A `filterMap` preserves the length exactly when no element is dropped. -/
lemma length_filterMap_eq_iff {α β : Type} (f : α → Option β) :
    ∀ l : List α, ((l.filterMap f).length = l.length ↔
      ∀ a ∈ l, (f a).isSome = true) := by
  intro l
  induction l with
  | nil => simp
  | cons a rest ih =>
    rw [List.filterMap_cons]
    cases h : f a with
    | none =>
      have hle := List.length_filterMap_le f rest
      simp only [List.length_cons]
      constructor
      · intro hlen
        omega
      · intro hall
        have := hall a (by simp)
        rw [h] at this
        simp at this
    | some b =>
      simp only [List.length_cons, Nat.add_right_cancel_iff, ih, h]
      constructor
      · intro hall a' ha'
        rcases List.mem_cons.mp ha' with rfl | hmem
        · simp [h]
        · exact hall a' hmem
      · intro hall a' ha'
        exact hall a' (List.mem_cons_of_mem _ ha')

/-- C7: feature-table rows ≤ landmark records ≤ sampled frames, with
equality throughout exactly when no frame is skipped at any stage: every
image readable, a pose detected in every frame, and every required landmark
index present in every persisted record. -/
theorem C7_pipeline_counts (frames : List FrameData) :
    ((extract_biomechanics (extract_pose_from_frames frames)).rows.length
        ≤ (extract_pose_from_frames frames).length) ∧
      ((extract_pose_from_frames frames).length ≤ frames.length) ∧
      (((extract_biomechanics (extract_pose_from_frames frames)).rows.length
            = (extract_pose_from_frames frames).length ∧
          (extract_pose_from_frames frames).length = frames.length) ↔
        ((∀ f ∈ frames, f.readable = true ∧ f.poseResult.isSome = true) ∧
          (∀ j ∈ extract_pose_from_frames frames,
            hasRequiredIndices j.2 = true))) := by
  have hrows : (extract_biomechanics (extract_pose_from_frames frames)).rows
      = (extract_pose_from_frames frames).filterMap
          (fun r => rowOfRecord r.1 r.2) :=
    biomechLoop_eq_filterMap _
  have hpose : extract_pose_from_frames frames
      = frames.filterMap (fun f =>
          if f.readable then f.poseResult.map (fun lm => (f.name, lm))
          else none) :=
    poseLoop_eq_filterMap frames
  refine ⟨?_, ?_, ?_⟩
  · rw [hrows]; exact List.length_filterMap_le _ _
  · rw [hpose]; exact List.length_filterMap_le _ _
  · rw [hrows, hpose, length_filterMap_eq_iff, length_filterMap_eq_iff]
    constructor
    · rintro ⟨h1, h2⟩
      refine ⟨?_, ?_⟩
      · intro f hf
        have hx := h2 f hf
        by_cases hr : f.readable
        · cases hp : f.poseResult
          · rw [if_pos hr, hp] at hx; simp at hx
          · exact ⟨hr, by simp [hp]⟩
        · rw [if_neg hr] at hx; simp at hx
      · intro j hj
        have hx := h1 j hj
        rw [rowOfRecord_isSome] at hx
        exact hx
    · rintro ⟨h1, h2⟩
      refine ⟨?_, ?_⟩
      · intro j hj
        rw [rowOfRecord_isSome]
        exact h2 j hj
      · intro f hf
        obtain ⟨hr, hp⟩ := h1 f hf
        rw [if_pos hr]
        cases hps : f.poseResult
        · rw [hps] at hp; simp at hp
        · rfl

/-- C7 witness: the count theorem at a concrete one-frame pipeline where
nothing is skipped. -/
theorem C7_witness :
    ((extract_biomechanics (extract_pose_from_frames
          [⟨"frame_00000", true, some rec2⟩])).rows.length
        ≤ (extract_pose_from_frames
            [⟨"frame_00000", true, some rec2⟩]).length) ∧
      ((extract_pose_from_frames [⟨"frame_00000", true, some rec2⟩]).length
        ≤ ([⟨"frame_00000", true, some rec2⟩] : List FrameData).length) :=
  ⟨(C7_pipeline_counts [⟨"frame_00000", true, some rec2⟩]).1,
    (C7_pipeline_counts [⟨"frame_00000", true, some rec2⟩]).2.1⟩

/-- Style constant `TRAIL_LEN = 15` from `renderer.py`. -/
def TRAIL_LEN : ℕ := 15

/-- The pose connection list `_CONNECTIONS` from `renderer.py`. -/
def rendererConnections : List (ℕ × ℕ) :=
  [ (11,13), (13,15), (12,14), (14,16)
  , (11,12), (11,23), (12,24)
  , (23,25), (25,27), (24,26), (26,28) ]

/-- Python `int(...)` on a float: truncation toward zero. -/
def pytrunc (q : ℚ) : ℤ := if 0 ≤ q then ⌊q⌋ else ⌈q⌉

/-- The `pts` dictionary of `render_skeleton_video` (line 82): every landmark
whose visibility exceeds `0.3`, projected to pixel space with the frame
width/height. -/
def visiblePts (lm : LandmarkRecord) (w h : ℕ) : List (ℕ × ℤ × ℤ) :=
  (lm.filter fun p => decide ((3:ℚ)/10 < p.2.vis)).map
    fun p => (p.1, (pytrunc (p.2.x * w), pytrunc (p.2.y * h)))

/-- Membership test / lookup in the `pts` dictionary. -/
def ptsLookup (pts : List (ℕ × ℤ × ℤ)) (i : ℕ) : Option (ℤ × ℤ) :=
  (pts.find? fun p => p.1 == i).map fun p => p.2

/-- Appending to the `deque(maxlen=TRAIL_LEN)` trail ring buffer: push on the
right, dropping from the left when full. -/
def pushTrail (trail : List (ℤ × ℤ)) (p : ℤ × ℤ) : List (ℤ × ℤ) :=
  let t := trail ++ [p]
  if TRAIL_LEN < t.length then t.drop (t.length - TRAIL_LEN) else t

/-- Pixel pair cast to the real plane, as consumed by `_angle` in the
renderer. -/
noncomputable def zpt (p : ℤ × ℤ) : ℝ × ℝ := ((p.1 : ℝ), (p.2 : ℝ))

/-- The live elbow-angle overlay: the angle and whether it is drawn green
(`ang < 170`) or red. -/
structure OverlayInfo where
  angle : ℝ
  green : Bool

/-- The observable content of one composed output frame: visible joints,
trail buffer state, drawn limb connections, the optional elbow overlay, and
the lower-third caption `Frame idx+1/total`. -/
structure RenderedFrame where
  pts : List (ℕ × ℤ × ℤ)
  trail : List (ℤ × ℤ)
  limbs : List (ℕ × ℕ)
  elbowOverlay : Option OverlayInfo
  caption : ℕ × ℕ

/-- The body of the render loop of `render_skeleton_video` (lines 79–108) for
one frame: build `pts`, push landmark 16 onto the trail, draw limbs whose
endpoints are both visible, and draw the elbow overlay iff all of 12, 14, 16
are in `pts`, green below `170` degrees and red otherwise.  Returns the
composed frame and the updated trail. -/
noncomputable def renderFrame (trail : List (ℤ × ℤ)) (idx total w h : ℕ)
    (lm : LandmarkRecord) : RenderedFrame × List (ℤ × ℤ) :=
  let pts := visiblePts lm w h
  let trail2 := match ptsLookup pts 16 with
    | some p => pushTrail trail p
    | none => trail
  let limbs := rendererConnections.filter fun ab =>
    (ptsLookup pts ab.1).isSome && (ptsLookup pts ab.2).isSome
  let overlay := match ptsLookup pts 12, ptsLookup pts 14, ptsLookup pts 16 with
    | some p12, some p14, some p16 =>
      let ang := _angle (zpt p12) (zpt p14) (zpt p16)
      some { angle := ang, green := if ang < 170 then true else false }
    | _, _, _ => none
  ({ pts := pts, trail := trail2, limbs := limbs, elbowOverlay := overlay
   , caption := (idx + 1, total) }, trail2)

/-- The frame loop of `render_skeleton_video`: `for idx, (fpath, jpath) in
enumerate(zip(frame_paths, json_paths))`, threading the trail buffer. -/
noncomputable def renderLoop (w h total : ℕ) :
    List (ℤ × ℤ) → ℕ → List (String × LandmarkRecord) → List RenderedFrame
  | _, _, [] => []
  | trail, idx, pr :: rest =>
    let r := renderFrame trail idx total w h pr.2
    r.1 :: renderLoop w h total r.2 (idx + 1) rest

/-- `render_skeleton_video` from `renderer.py`: reads `frame_paths[0]`
unguarded to fix the output dimensions (an exception — modelled as `none` —
on an empty frame manifest), then writes one composed frame per element of
`zip(frame_paths, json_paths)`. -/
noncomputable def render_skeleton_video (framePaths : List String)
    (jsons : List LandmarkRecord) (w h : ℕ) : Option (List RenderedFrame) :=
  match framePaths with
  | [] => none
  | _ :: _ =>
    some (renderLoop w h framePaths.length [] 0 (framePaths.zip jsons))

/-- A landmark index passes the visibility filter of the renderer. -/
def passesVisibility (lm : LandmarkRecord) (i : ℕ) : Prop :=
  ∃ l ∈ lm, l.1 = i ∧ (3:ℚ)/10 < l.2.vis

/-- Membership in `pts` corresponds exactly to passing the visibility
filter. -/
lemma ptsLookup_isSome_iff (lm : LandmarkRecord) (w h : ℕ) (i : ℕ) :
    (ptsLookup (visiblePts lm w h) i).isSome = true ↔ passesVisibility lm i := by
  unfold ptsLookup visiblePts passesVisibility
  have hmap : ∀ (o : Option (ℕ × ℤ × ℤ)), (o.map fun p => p.2).isSome = o.isSome := by
    intro o; cases o <;> rfl
  rw [hmap, List.find?_isSome]
  constructor
  · rintro ⟨p, hp, hpi⟩
    rw [List.mem_map] at hp
    obtain ⟨q, hq, rfl⟩ := hp
    rw [List.mem_filter] at hq
    refine ⟨q, hq.1, ?_, ?_⟩
    · simpa using hpi
    · simpa using hq.2
  · rintro ⟨l, hl, hi, hvis⟩
    refine ⟨(l.1, (pytrunc (l.2.x * w), pytrunc (l.2.y * h))), ?_, ?_⟩
    · rw [List.mem_map]
      refine ⟨l, ?_, rfl⟩
      rw [List.mem_filter]
      exact ⟨hl, by simpa using hvis⟩
    · simpa using hi

/-- C8: the elbow-angle overlay is drawn if and only if all three right-arm
landmarks 12, 14 and 16 pass the visibility filter (visibility above `0.3`);
when drawn, its angle is `_angle` of the three pixel points and it is green
exactly when that angle is below `170` degrees (red otherwise).  When fewer
than three are present the overlay is simply `none`: the model is a total
function, no error is raised. -/
theorem C8_elbow_overlay (trail : List (ℤ × ℤ)) (idx total w h : ℕ)
    (lm : LandmarkRecord) :
    ((renderFrame trail idx total w h lm).1.elbowOverlay.isSome = true ↔
      (passesVisibility lm 12 ∧ passesVisibility lm 14 ∧
        passesVisibility lm 16)) ∧
    (∀ o, (renderFrame trail idx total w h lm).1.elbowOverlay = some o →
      ∃ p12 p14 p16,
        ptsLookup (visiblePts lm w h) 12 = some p12 ∧
        ptsLookup (visiblePts lm w h) 14 = some p14 ∧
        ptsLookup (visiblePts lm w h) 16 = some p16 ∧
        o.angle = _angle (zpt p12) (zpt p14) (zpt p16) ∧
        (o.green = true ↔ o.angle < 170)) := by
  unfold renderFrame
  rw [← ptsLookup_isSome_iff lm w h 12, ← ptsLookup_isSome_iff lm w h 14,
    ← ptsLookup_isSome_iff lm w h 16]
  cases h12 : ptsLookup (visiblePts lm w h) 12 <;>
    cases h14 : ptsLookup (visiblePts lm w h) 14 <;>
    cases h16 : ptsLookup (visiblePts lm w h) 16 <;>
    simp only [h12, h14, h16] <;>
    constructor <;>
    simp

/-- A concrete record with exactly the three right-arm landmarks visible. -/
def lm8 : LandmarkRecord :=
  [(12, ⟨0, 0, 0, 1⟩), (14, ⟨1, 0, 0, 1⟩), (16, ⟨1, 1, 0, 1⟩)]

/-- C8 witness: the overlay theorem applied to the concrete record `lm8` on a
`1 × 1` frame; all three right-arm landmarks pass the filter, so the overlay
is drawn, and the implication hypothesis is discharged on the resulting
overlay. -/
theorem C8_witness :
    ∃ o, (renderFrame [] 0 1 1 1 lm8).1.elbowOverlay = some o ∧
      ∃ p12 p14 p16,
        ptsLookup (visiblePts lm8 1 1) 12 = some p12 ∧
        ptsLookup (visiblePts lm8 1 1) 14 = some p14 ∧
        ptsLookup (visiblePts lm8 1 1) 16 = some p16 ∧
        o.angle = _angle (zpt p12) (zpt p14) (zpt p16) ∧
        (o.green = true ↔ o.angle < 170) := by
  have h := C8_elbow_overlay [] 0 1 1 1 lm8
  have hvis : passesVisibility lm8 12 ∧ passesVisibility lm8 14 ∧
      passesVisibility lm8 16 := by
    refine ⟨⟨(12, ⟨0, 0, 0, 1⟩), by simp [lm8], rfl, by norm_num⟩,
      ⟨(14, ⟨1, 0, 0, 1⟩), by simp [lm8], rfl, by norm_num⟩,
      ⟨(16, ⟨1, 1, 0, 1⟩), by simp [lm8], rfl, by norm_num⟩⟩
  have hsome := h.1.mpr hvis
  obtain ⟨o, ho⟩ := Option.isSome_iff_exists.mp hsome
  exact ⟨o, ho, h.2 o ho⟩

/-- The render loop writes exactly one output frame per input pair. -/
lemma renderLoop_length (w h total : ℕ) :
    ∀ (prs : List (String × LandmarkRecord)) (trail : List (ℤ × ℤ)) (idx : ℕ),
      (renderLoop w h total trail idx prs).length = prs.length := by
  intro prs
  induction prs with
  | nil => intro trail idx; rfl
  | cons pr rest ih =>
    intro trail idx
    show ((renderFrame trail idx total w h pr.2).1 ::
        renderLoop w h total (renderFrame trail idx total w h pr.2).2
          (idx + 1) rest).length = (pr :: rest).length
    rw [List.length_cons, List.length_cons, ih]

/-- C10: with a non-empty frame manifest, `render_skeleton_video` writes
exactly `min(len(frame_paths), len(json_paths))` frames — `zip` silently
truncates the longer manifest; with an empty frame manifest the unguarded
`frame_paths[0]` read fails (modelled as `none`). -/
theorem C10_render_writes_min (framePaths : List String)
    (jsons : List LandmarkRecord) (w h : ℕ) (hne : framePaths ≠ []) :
    ∃ out, render_skeleton_video framePaths jsons w h = some out ∧
      out.length = min framePaths.length jsons.length := by
  match framePaths, hne with
  | f :: fs, _ =>
    refine ⟨_, rfl, ?_⟩
    rw [renderLoop_length, List.length_zip]

/-- C10 witness: one frame path and an empty landmark manifest render to a
video with `min 1 0 = 0` frames, without error. -/
theorem C10_witness :
    ∃ out, render_skeleton_video ["frame_00000.jpg"] [] 1 1 = some out ∧
      out.length = min 1 0 :=
  C10_render_writes_min ["frame_00000.jpg"] [] 1 1 (by simp)

/-- The MediaPipe pose connection pairs from `visualizer.py`. -/
def vizConnections : List (ℕ × ℕ) :=
  [ (0,1), (1,2), (2,3), (3,7)
  , (0,4), (4,5), (5,6), (6,8)
  , (9,10)
  , (11,13), (13,15)
  , (12,14), (14,16)
  , (11,12), (11,23), (12,24)
  , (23,25), (25,27)
  , (24,26), (26,28) ]

/-- `_load_landmarks` from `visualizer.py` (lines 31–44): for each of the 33
indices append the point's coordinates — with `y` negated for display — or
`None` when the index is absent. -/
def _load_landmarks (lm : LandmarkRecord) :
    List (Option ℚ) × List (Option ℚ) × List (Option ℚ) :=
  ( (List.range 33).map fun i => (lookupLm lm i).map fun p => p.x
  , (List.range 33).map fun i => (lookupLm lm i).map fun p => -p.y
  , (List.range 33).map fun i => (lookupLm lm i).map fun p => p.z )

/-- One Plotly `Scatter3d` trace as built by `_skeleton_trace`: the
interleaved segment coordinate lists (`None` separators included), plus the
display name and color. -/
structure Trace3D where
  lines_x : List (Option ℚ)
  lines_y : List (Option ℚ)
  lines_z : List (Option ℚ)
  name : String
  color : String

/-- `_skeleton_trace` from `visualizer.py` (lines 46–55): for each connection
whose two endpoints are both present, append the two endpoint coordinates
and a `None` separator to each axis list. -/
def _skeleton_trace (xs ys zs : List (Option ℚ)) (name color : String) :
    Trace3D :=
  { lines_x := vizConnections.flatMap fun ab =>
      if xs.getD ab.1 none = none ∨ xs.getD ab.2 none = none then []
      else [xs.getD ab.1 none, xs.getD ab.2 none, none]
  , lines_y := vizConnections.flatMap fun ab =>
      if xs.getD ab.1 none = none ∨ xs.getD ab.2 none = none then []
      else [ys.getD ab.1 none, ys.getD ab.2 none, none]
  , lines_z := vizConnections.flatMap fun ab =>
      if xs.getD ab.1 none = none ∨ xs.getD ab.2 none = none then []
      else [zs.getD ab.1 none, zs.getD ab.2 none, none]
  , name := name
  , color := color }

/-- The comparison figure built by `compare_poses`: two overlaid traces. -/
structure CompareFigure where
  actual : Trace3D
  ideal : Trace3D

/-- `compare_poses` from `visualizer.py` (lines 67–76): load both records and
overlay their skeleton traces in one scene. -/
def compare_poses (actual ideal : LandmarkRecord) : CompareFigure :=
  let a := _load_landmarks actual
  let i := _load_landmarks ideal
  { actual := _skeleton_trace a.1 a.2.1 a.2.2 "Actual" "blue"
  , ideal := _skeleton_trace i.1 i.2.1 i.2.2 "Ideal" "green" }

/-- C9: `compare_poses` applied to the same landmark record twice produces
two traces with identical coordinate sequences — `_load_landmarks` and
`_skeleton_trace` are deterministic functions of the record contents, so the
two traces are coincident (they differ only in name and color). -/
theorem C9_compare_poses_coincident (r : LandmarkRecord) :
    (compare_poses r r).actual.lines_x = (compare_poses r r).ideal.lines_x ∧
      (compare_poses r r).actual.lines_y = (compare_poses r r).ideal.lines_y ∧
      (compare_poses r r).actual.lines_z = (compare_poses r r).ideal.lines_z :=
  ⟨rfl, rfl, rfl⟩
